import Mathlib

/-!
Verification of the fdk-rust bootstrap (`src/main.rs`) against its
natural-language specification.

The development is a shallow embedding of the source:

* `FdkEnv`, `FdkError`, `RustFdkError` mirror the corresponding Rust types.
* `FdkRunner` (the threshold logger) becomes pure state passing: `eprintln!`
  is modelled as appending the printed line to an explicit `stderr` list.
* `FdkListener` (the socket publisher) becomes explicit state passing over a
  small filesystem model `FsState` that records regular/socket files with
  their permission modes and symbolic links with their targets.  The
  deterministic failure model follows POSIX as used by the source:
  `UnixListener::bind` fails iff the path already exists, `File::open` fails
  iff the file is absent, `symlink` fails iff the link path already exists.
* Rust `Result`/`?` becomes `Except`; panics (`unwrap`, panicking library
  constructors) become `Option`/`none`.
-/

set_option autoImplicit false

/-- Embeds `FdkEnv` from `src/main.rs`: the immutable snapshot of the eight
environment variables, each optional. -/
structure FdkEnv where
  fn_listener : Option String
  fn_format : Option String
  fn_logframe_name : Option String
  fn_logframe_hdr : Option String
  fdk_log_threshold : Option String
  fn_app_id : Option String
  fn_fn_id : Option String
  fn_memory : Option String
deriving DecidableEq, Repr

/-- Embeds `FdkError`: a message plus an ordered backtrace of frames. -/
structure FdkError where
  message : String
  backtrace : List String
deriving DecidableEq, Repr

/-- Embeds `FdkError::new`: message from the argument, empty backtrace. -/
def FdkError.new (message : String) : FdkError :=
  { message := message, backtrace := [] }

/-- Abstract kinds of `std::io::Error` relevant to the modelled syscalls. -/
inductive IoErrorKind where
  | addrInUse
  | notFound
  | other
deriving DecidableEq, Repr

/-- Embeds `RustFdkError`: either a domain `FdkError` or a wrapped I/O error. -/
inductive RustFdkError where
  | Fdk (err : FdkError)
  | Io (err : IoErrorKind)
deriving DecidableEq, Repr

/-- Embeds `FdkRunner`: the logger, holding the shared environment snapshot. -/
structure FdkRunner where
  env_context : FdkEnv
deriving DecidableEq, Repr

/-- Embeds `FdkRunner::FDK_LOG_DEBUG`. -/
def FDK_LOG_DEBUG : Nat := 0

/-- Embeds `FdkRunner::FDK_LOG_DEFAULT`. -/
def FDK_LOG_DEFAULT : Nat := 1

/-- Embeds `FdkRunner::new`. -/
def FdkRunner.new (env_context : FdkEnv) : FdkRunner :=
  { env_context := env_context }

/-- Embeds Rust `str::parse::<u32>` (`u32::from_str`, radix 10): an optional
leading `+` (codepoint 43), then a nonempty run of ASCII digits, rejecting
any other character and values above `u32::MAX`. -/
def parseU32 (s : String) : Option Nat :=
  let cs : List Char :=
    match s.data with
    | c :: rest => if c.toNat = 43 then rest else s.data
    | [] => []
  if cs = [] then none
  else if cs.all (fun c => c.isDigit) then
    let v := cs.foldl (fun a c => a * 10 + (c.toNat - 48)) 0
    if v ≤ 4294967295 then some v else none
  else none

/-- Embeds `FdkRunner::get_log_threshold`: `fdk_log_threshold.map_or(DEFAULT,
parse.unwrap_or(DEFAULT))`. -/
def FdkRunner.get_log_threshold (r : FdkRunner) : Nat :=
  match r.env_context.fdk_log_threshold with
  | none => FDK_LOG_DEFAULT
  | some env => (parseU32 env).getD FDK_LOG_DEFAULT

/-- Embeds `FdkRunner::log`: `eprintln!(content)` iff
`log_level.unwrap_or(DEFAULT) >= get_log_threshold()`; the diagnostic stream
is the explicit `stderr` line list. -/
def FdkRunner.log (r : FdkRunner) (content : String) (log_level : Option Nat)
    (stderr : List String) : List String :=
  if r.get_log_threshold ≤ log_level.getD FDK_LOG_DEFAULT then stderr ++ [content]
  else stderr

/-- Embeds `FdkRunner::log_error`: log the message at `None` (= DEFAULT)
severity, then the newline-joined backtrace at DEBUG severity. -/
def FdkRunner.log_error (r : FdkRunner) (err : FdkError) (stderr : List String) :
    List String :=
  r.log (String.intercalate "\n" err.backtrace) (some FDK_LOG_DEBUG)
    (r.log err.message none stderr)

/-- Embeds `FdkRunner::debug`: log at DEBUG severity. -/
def FdkRunner.debug (r : FdkRunner) (content : String) (stderr : List String) :
    List String :=
  r.log content (some FDK_LOG_DEBUG) stderr

/-- An environment that sets only `FDK_LOG_THRESHOLD` (used for concrete
logger scenarios). -/
def envWithThreshold (v : Option String) : FdkEnv :=
  { fn_listener := none, fn_format := none, fn_logframe_name := none
    fn_logframe_hdr := none, fdk_log_threshold := v, fn_app_id := none
    fn_fn_id := none, fn_memory := none }

/-- C7: a message logged at an explicit severity is written to the diagnostic
stream iff the severity is at least the configured threshold; in particular
at threshold 1 a severity-0 message is suppressed and a severity-1 message is
emitted, and at threshold 0 both are emitted. -/
theorem C7_log_emits_iff_severity_reaches_threshold :
    ∀ (r : FdkRunner) (content : String) (sev : Nat) (stderr : List String),
      (FdkRunner.log r content (some sev) stderr =
        if FdkRunner.get_log_threshold r ≤ sev then stderr ++ [content] else stderr)
      ∧ FdkRunner.log (FdkRunner.new (envWithThreshold (some "1"))) content
          (some 0) stderr = stderr
      ∧ FdkRunner.log (FdkRunner.new (envWithThreshold (some "1"))) content
          (some 1) stderr = stderr ++ [content]
      ∧ FdkRunner.log (FdkRunner.new (envWithThreshold (some "0"))) content
          (some 0) stderr = stderr ++ [content]
      ∧ FdkRunner.log (FdkRunner.new (envWithThreshold (some "0"))) content
          (some 1) stderr = stderr ++ [content] := by
  intro r content sev stderr
  have h1 : FdkRunner.get_log_threshold (FdkRunner.new (envWithThreshold (some "1"))) = 1 := by
    decide
  have h0 : FdkRunner.get_log_threshold (FdkRunner.new (envWithThreshold (some "0"))) = 0 := by
    decide
  refine ⟨rfl, ?_, ?_, ?_, ?_⟩ <;>
    simp [FdkRunner.log, h1, h0]

/-- C8: `log_error` first logs the error message at DEFAULT severity, then the
backtrace frames joined by newlines (in original order) at DEBUG severity; at
threshold 1 (DEFAULT) only the message appears, at threshold 0 (DEBUG) both
appear. -/
theorem C8_log_error_message_then_backtrace :
    ∀ (r : FdkRunner) (err : FdkError) (stderr : List String),
      (FdkRunner.log_error r err stderr =
        (if FdkRunner.get_log_threshold r = 0 then
          (if FdkRunner.get_log_threshold r ≤ FDK_LOG_DEFAULT then
            stderr ++ [err.message] else stderr)
            ++ [String.intercalate "\n" err.backtrace]
         else
          (if FdkRunner.get_log_threshold r ≤ FDK_LOG_DEFAULT then
            stderr ++ [err.message] else stderr)))
      ∧ FdkRunner.log_error (FdkRunner.new (envWithThreshold (some "1"))) err stderr =
          stderr ++ [err.message]
      ∧ FdkRunner.log_error (FdkRunner.new (envWithThreshold (some "0"))) err stderr =
          stderr ++ [err.message] ++ [String.intercalate "\n" err.backtrace]
      ∧ ∀ f1 f2 : String, String.intercalate "\n" [f1, f2] = f1 ++ "\n" ++ f2 := by
  intro r err stderr
  have h1 : FdkRunner.get_log_threshold (FdkRunner.new (envWithThreshold (some "1"))) = 1 := by
    decide
  have h0 : FdkRunner.get_log_threshold (FdkRunner.new (envWithThreshold (some "0"))) = 0 := by
    decide
  refine ⟨?_, ?_, ?_, fun f1 f2 => rfl⟩
  · by_cases hz : FdkRunner.get_log_threshold r = 0
    · simp [FdkRunner.log_error, FdkRunner.log, FDK_LOG_DEBUG, FDK_LOG_DEFAULT, hz]
    · simp [FdkRunner.log_error, FdkRunner.log, FDK_LOG_DEBUG, FDK_LOG_DEFAULT, hz,
        Nat.le_zero]
  · simp [FdkRunner.log_error, FdkRunner.log, h1, FDK_LOG_DEBUG, FDK_LOG_DEFAULT]
  · simp [FdkRunner.log_error, FdkRunner.log, h0, FDK_LOG_DEBUG, FDK_LOG_DEFAULT]

/-- C9: computing the effective log threshold is total and never fails: with
no configured string it is the DEFAULT level 1; with a configured string that
does not parse as a `u32` it is 1; with a parsable string it is the parsed
value. -/
theorem C9_threshold_total_with_default :
    ∀ r : FdkRunner,
      (r.env_context.fdk_log_threshold = none →
        FdkRunner.get_log_threshold r = FDK_LOG_DEFAULT)
      ∧ (∀ s, r.env_context.fdk_log_threshold = some s → parseU32 s = none →
          FdkRunner.get_log_threshold r = FDK_LOG_DEFAULT)
      ∧ (∀ s v, r.env_context.fdk_log_threshold = some s → parseU32 s = some v →
          FdkRunner.get_log_threshold r = v) := by
  intro r
  refine ⟨?_, ?_, ?_⟩
  · intro h
    simp [FdkRunner.get_log_threshold, h]
  · intro s hs hp
    simp [FdkRunner.get_log_threshold, hs, hp]
  · intro s v hs hp
    simp [FdkRunner.get_log_threshold, hs, hp]

/-- Witness for C9 at concrete inputs: absent, unparsable, and parsable
threshold strings. -/
theorem C9_threshold_total_with_default_witness :
    FdkRunner.get_log_threshold (FdkRunner.new (envWithThreshold none)) = FDK_LOG_DEFAULT
    ∧ FdkRunner.get_log_threshold (FdkRunner.new (envWithThreshold (some "abc"))) = FDK_LOG_DEFAULT
    ∧ FdkRunner.get_log_threshold (FdkRunner.new (envWithThreshold (some "3"))) = 3 :=
  ⟨(C9_threshold_total_with_default (FdkRunner.new (envWithThreshold none))).1 rfl,
   (C9_threshold_total_with_default (FdkRunner.new (envWithThreshold (some "abc")))).2.1
     "abc" rfl (by decide),
   (C9_threshold_total_with_default (FdkRunner.new (envWithThreshold (some "3")))).2.2
     "3" 3 rfl (by decide)⟩

/-- Embeds Rust `str::starts_with` on strings (character-sequence prefix). -/
def startsWithStr (s p : String) : Bool :=
  p.data.isPrefixOf s.data

/-- Embeds Rust `str::strip_prefix` on strings: `some` of the remainder when
`p` is a prefix of `s`, otherwise `none`. -/
def stripPrefixStr (s p : String) : Option String :=
  if p.data.isPrefixOf s.data then some (String.mk (s.data.drop p.data.length))
  else none

theorem startsWithStr_append (p t : String) : startsWithStr (p ++ t) p = true := by
  simp [startsWithStr, String.data_append, List.isPrefixOf_iff_prefix]

theorem stripPrefixStr_append (p t : String) : stripPrefixStr (p ++ t) p = some t := by
  simp only [stripPrefixStr, String.data_append, List.isPrefixOf_iff_prefix,
    List.prefix_append, if_pos, List.drop_left]

/-- The filesystem model: regular/socket files (path, permission mode) and
symbolic links (link path, target). -/
structure FsState where
  files : List (String × Nat)
  links : List (String × String)
deriving DecidableEq, Repr

/-- Mode of the file at `p`, if a file exists there. -/
def FsState.fileMode (fs : FsState) (p : String) : Option Nat :=
  (fs.files.find? (fun e => e.1 == p)).map (fun e => e.2)

/-- Target of the symlink at `p`, if a symlink exists there. -/
def FsState.linkTarget (fs : FsState) (p : String) : Option String :=
  (fs.links.find? (fun e => e.1 == p)).map (fun e => e.2)

/-- Whether any filesystem entry (file or symlink) occupies `p`. -/
def FsState.existsPath (fs : FsState) (p : String) : Bool :=
  (fs.fileMode p).isSome || (fs.linkTarget p).isSome

/-- Embeds `UnixListener::bind(p)`: fails with `EADDRINUSE` when the path is
occupied, otherwise creates the socket file at `p` with creation mode `m0`
(the mode prior to any `chmod`, left abstract). -/
def FsState.bind (fs : FsState) (m0 : Nat) (p : String) : Except IoErrorKind FsState :=
  if fs.existsPath p then Except.error IoErrorKind.addrInUse
  else Except.ok { fs with files := (p, m0) :: fs.files }

/-- Embeds `File::set_permissions` on the file at `p`: replace its mode. -/
def FsState.setFileMode (fs : FsState) (p : String) (m : Nat) : FsState :=
  { fs with files := fs.files.map (fun e => if e.1 == p then (e.1, m) else e) }

/-- Embeds `std::os::unix::fs::symlink(target, link)`: record the new link. -/
def FsState.addLink (fs : FsState) (link target : String) : FsState :=
  { fs with links := (link, target) :: fs.links }

/-- Embeds the constructed `FdkListener` (the bound socket handle carries no
pure data; its existence is the socket file recorded in the `FsState`). -/
structure FdkListener where
  socket_path : String
  private_socket_path : String
  env : FdkEnv
  runner : FdkRunner
deriving DecidableEq, Repr

/-- Embeds `FdkListener::SOCKET_PREFIX`. -/
def SOCKET_PREFIX : String := "unix:/"

/-- Embeds `FdkListener::PRIVATE_SOCKET_SUFFIX`. -/
def PRIVATE_SOCKET_SUFFIX : String := ".private"

/-- Embeds `FdkListener::new`: validate the listener url, derive the public
path (scheme stripped) and the private path (suffix appended), then bind the
private socket.  Returns the construction result together with the filesystem
state after the attempt. -/
def FdkListener.new (env : FdkEnv) (runner : FdkRunner) (fs : FsState) (m0 : Nat) :
    Except RustFdkError FdkListener × FsState :=
  match env.fn_listener with
  | none => (Except.error (RustFdkError.Fdk (FdkError.new "No listener url provided")), fs)
  | some url =>
    if startsWithStr url SOCKET_PREFIX = false then
      (Except.error (RustFdkError.Fdk (FdkError.new "Listener url is not a unix socket")), fs)
    else
      match stripPrefixStr url SOCKET_PREFIX with
      | none =>
        (Except.error (RustFdkError.Fdk (FdkError.new "Cannot strip FdkListener.url prefix")), fs)
      | some stripped_url =>
        match FsState.bind fs m0 (stripped_url ++ PRIVATE_SOCKET_SUFFIX) with
        | Except.error e => (Except.error (RustFdkError.Io e), fs)
        | Except.ok fs2 =>
          (Except.ok
            { socket_path := stripped_url
              private_socket_path := stripped_url ++ PRIVATE_SOCKET_SUFFIX
              env := env
              runner := runner }, fs2)

/-- Embeds `FdkListener::link_socket_file`: open the private socket file
(failing with the dedicated message when it is absent), widen its mode to
`0o666`, create the symlink `public -> private` (failing when the public path
is occupied), and log the mapping at DEBUG severity. -/
def FdkListener.link_socket_file (l : FdkListener) (fs : FsState)
    (stderr : List String) : Except RustFdkError Unit × FsState × List String :=
  if (fs.fileMode l.private_socket_path).isNone then
    (Except.error (RustFdkError.Fdk (FdkError.new "Cannot access private socket file")),
      fs, stderr)
  else
    let fs1 := fs.setFileMode l.private_socket_path 0o666
    if fs1.existsPath l.socket_path then
      (Except.error (RustFdkError.Io IoErrorKind.other), fs1, stderr)
    else
      (Except.ok (), fs1.addLink l.socket_path l.private_socket_path,
        l.runner.debug
          ("Listening on " ++ l.private_socket_path ++ "->" ++ l.socket_path) stderr)

theorem find?_map_setMode (xs : List (String × Nat)) (p : String) (m : Nat)
    (h : (xs.find? (fun e => e.1 == p)).isSome = true) :
    ((xs.map (fun e => if e.1 == p then (e.1, m) else e)).find?
      (fun e => e.1 == p)).map (fun e => e.2) = some m := by
  rw [List.find?_map]
  have hq : ((fun e : String × Nat => e.1 == p) ∘
      (fun e : String × Nat => if e.1 == p then (e.1, m) else e))
      = fun e : String × Nat => e.1 == p := by
    funext e
    simp only [Function.comp_apply]
    by_cases he : (e.1 == p) = true
    · rw [if_pos he]
    · rw [if_neg he]
  rw [hq]
  cases hf : xs.find? (fun e => e.1 == p) with
  | none => rw [hf] at h; simp at h
  | some e0 =>
    have he0 : (e0.1 == p) = true :=
      @List.find?_some _ (fun e : String × Nat => e.1 == p) e0 xs hf
    simp [he0]
    rw [if_pos (show e0.1 = p from by simpa using he0)]

/-- C3: for every listener string `"unix:/" ++ P`, a successful construction
derives exactly `socket_path = P` and `private_socket_path = P ++ ".private"`. -/
theorem C3_paths_derived_exactly (P : String) (env : FdkEnv) (runner : FdkRunner)
    (fs : FsState) (m0 : Nat) (l : FdkListener)
    (hurl : env.fn_listener = some ("unix:/" ++ P))
    (hok : (FdkListener.new env runner fs m0).1 = Except.ok l) :
    l.socket_path = P ∧ l.private_socket_path = P ++ ".private" := by
  unfold FdkListener.new at hok
  rw [hurl] at hok
  simp only [SOCKET_PREFIX, startsWithStr_append, stripPrefixStr_append] at hok
  cases hb : FsState.bind fs m0 (P ++ PRIVATE_SOCKET_SUFFIX) with
  | error e =>
    rw [hb] at hok
    simp at hok
  | ok fs2 =>
    rw [hb] at hok
    have hok2 : FdkListener.mk P (P ++ PRIVATE_SOCKET_SUFFIX) env runner = l := by
      simpa using hok
    rw [← hok2]
    exact ⟨rfl, rfl⟩

/-- Decidable equality for `Except`, so concrete runs can be checked by
`decide`. -/
def exceptDecEq {ε α : Type} [DecidableEq ε] [DecidableEq α] :
    DecidableEq (Except ε α)
  | Except.error e1, Except.error e2 =>
    if h : e1 = e2 then isTrue (by rw [h])
    else isFalse (by intro hc; injection hc; contradiction)
  | Except.error _, Except.ok _ => isFalse (fun hc => Except.noConfusion hc)
  | Except.ok _, Except.error _ => isFalse (fun hc => Except.noConfusion hc)
  | Except.ok a1, Except.ok a2 =>
    if h : a1 = a2 then isTrue (by rw [h])
    else isFalse (by intro hc; injection hc; contradiction)

instance {ε α : Type} [DecidableEq ε] [DecidableEq α] : DecidableEq (Except ε α) :=
  exceptDecEq

/-- Concrete environment from the spec's end-to-end scenario:
`FN_LISTENER=unix:/tmp/test.sock`, everything else absent. -/
def envTestListener : FdkEnv :=
  { fn_listener := some "unix:/tmp/test.sock", fn_format := none
    fn_logframe_name := none, fn_logframe_hdr := none, fdk_log_threshold := none
    fn_app_id := none, fn_fn_id := none, fn_memory := none }

/-- The empty filesystem. -/
def fsEmpty : FsState := { files := [], links := [] }

/-- The listener constructed from `envTestListener` on an empty filesystem. -/
def listenerW : FdkListener :=
  { socket_path := "tmp/test.sock"
    private_socket_path := "tmp/test.sock.private"
    env := envTestListener
    runner := FdkRunner.new envTestListener }

/-- Witness for C3: the scenario listener string derives the expected paths. -/
theorem C3_paths_derived_exactly_witness :
    listenerW.socket_path = "tmp/test.sock"
    ∧ listenerW.private_socket_path = "tmp/test.sock" ++ ".private" :=
  C3_paths_derived_exactly "tmp/test.sock" envTestListener
    (FdkRunner.new envTestListener) fsEmpty 420 listenerW (by decide) (by decide)

/-- C4: with an absent listener value construction fails with
"No listener url provided"; with a present value not starting with `unix:/`
it fails with "Listener url is not a unix socket"; in both cases the
filesystem is returned unchanged (no bind, no permission change, no symlink). -/
theorem C4_invalid_listener_fails_without_fs_effects (env : FdkEnv)
    (runner : FdkRunner) (fs : FsState) (m0 : Nat) :
    (env.fn_listener = none →
      FdkListener.new env runner fs m0 =
        (Except.error (RustFdkError.Fdk
          { message := "No listener url provided", backtrace := [] }), fs))
    ∧ (∀ url, env.fn_listener = some url → startsWithStr url "unix:/" = false →
      FdkListener.new env runner fs m0 =
        (Except.error (RustFdkError.Fdk
          { message := "Listener url is not a unix socket", backtrace := [] }), fs)) := by
  constructor
  · intro h
    simp [FdkListener.new, h, FdkError.new]
  · intro url hu hpre
    simp [FdkListener.new, hu, SOCKET_PREFIX, hpre, FdkError.new]

/-- The all-absent environment. -/
def envNoListener : FdkEnv := envWithThreshold none

/-- An environment whose listener url is not a unix-socket url. -/
def envBadListener : FdkEnv :=
  { envNoListener with fn_listener := some "http://x" }

/-- Witness for C4 at the two concrete invalid environments. -/
theorem C4_invalid_listener_fails_without_fs_effects_witness :
    FdkListener.new envNoListener (FdkRunner.new envNoListener) fsEmpty 420 =
      (Except.error (RustFdkError.Fdk
        { message := "No listener url provided", backtrace := [] }), fsEmpty)
    ∧ FdkListener.new envBadListener (FdkRunner.new envBadListener) fsEmpty 420 =
      (Except.error (RustFdkError.Fdk
        { message := "Listener url is not a unix socket", backtrace := [] }), fsEmpty) :=
  ⟨(C4_invalid_listener_fails_without_fs_effects envNoListener
      (FdkRunner.new envNoListener) fsEmpty 420).1 rfl,
   (C4_invalid_listener_fails_without_fs_effects envBadListener
      (FdkRunner.new envBadListener) fsEmpty 420).2 "http://x" rfl (by decide)⟩

theorem linkTarget_addLink_self (fs : FsState) (link target : String) :
    (fs.addLink link target).linkTarget link = some target := by
  unfold FsState.addLink FsState.linkTarget
  rw [List.find?_cons_of_pos _ (by simp)]
  rfl

theorem fileMode_setFileMode_self (fs : FsState) (p : String) (m : Nat)
    (h : (fs.fileMode p).isSome = true) :
    (fs.setFileMode p m).fileMode p = some m := by
  unfold FsState.setFileMode FsState.fileMode
  apply find?_map_setMode
  unfold FsState.fileMode at h
  simpa using h

/-- C5: when `link_socket_file` succeeds, the public path is a symlink whose
target is the private path, and the private socket file's mode is `0o666`. -/
theorem C5_publish_links_and_permissions (l : FdkListener) (fs fs2 : FsState)
    (stderr stderr2 : List String)
    (h : FdkListener.link_socket_file l fs stderr = (Except.ok (), fs2, stderr2)) :
    FsState.linkTarget fs2 l.socket_path = some l.private_socket_path
    ∧ FsState.fileMode fs2 l.private_socket_path = some 0o666 := by
  simp only [FdkListener.link_socket_file] at h
  by_cases h1 : (FsState.fileMode fs l.private_socket_path).isNone = true
  · rw [if_pos h1] at h
    simp at h
  · rw [if_neg h1] at h
    by_cases h2 : FsState.existsPath
        (fs.setFileMode l.private_socket_path 0o666) l.socket_path = true
    · rw [if_pos h2] at h
      simp at h
    · rw [if_neg h2] at h
      have hfs : (fs.setFileMode l.private_socket_path 0o666).addLink
          l.socket_path l.private_socket_path = fs2 :=
        congrArg (fun t => t.2.1) h
      have hs : (FsState.fileMode fs l.private_socket_path).isSome = true := by
        cases hm : FsState.fileMode fs l.private_socket_path with
        | none => exact absurd (by simp [hm]) h1
        | some v => rfl
      refine ⟨?_, ?_⟩
      · rw [← hfs]
        exact linkTarget_addLink_self _ _ _
      · rw [← hfs]
        exact fileMode_setFileMode_self fs _ _ hs

/-- The filesystem holding the bound private socket (pre-publish). -/
def fsPre : FsState := { files := [("tmp/test.sock.private", 420)], links := [] }

/-- The filesystem after a successful publish of `listenerW`. -/
def fsPost : FsState :=
  { files := [("tmp/test.sock.private", 438)]
    links := [("tmp/test.sock", "tmp/test.sock.private")] }

/-- Witness for C5: a concrete successful publish run. -/
theorem C5_publish_links_and_permissions_witness :
    FsState.linkTarget fsPost listenerW.socket_path = some listenerW.private_socket_path
    ∧ FsState.fileMode fsPost listenerW.private_socket_path = some 0o666 :=
  C5_publish_links_and_permissions listenerW fsPre fsPost [] [] (by decide)

theorem bind_preserves_links (fs : FsState) (m0 : Nat) (p : String) (fs2 : FsState)
    (h : FsState.bind fs m0 p = Except.ok fs2) : fs2.links = fs.links := by
  unfold FsState.bind at h
  by_cases he : FsState.existsPath fs p = true
  · rw [if_pos he] at h
    simp at h
  · rw [if_neg he] at h
    injection h with h2
    rw [← h2]

theorem new_cases (env : FdkEnv) (runner : FdkRunner) (fs : FsState) (m0 : Nat) :
    (FdkListener.new env runner fs m0).2 = fs
    ∨ ∃ l, (FdkListener.new env runner fs m0).1 = Except.ok l := by
  unfold FdkListener.new
  split
  · left; rfl
  · split
    · left; rfl
    · split
      · left; rfl
      · split
        · left; rfl
        · right; exact ⟨_, rfl⟩

/-- C6: the symlink at the public path is never created before a successful
bind: construction itself never creates a symlink, a failed construction
leaves the filesystem untouched, and publishing against a filesystem in which
the private socket file was never bound fails with "Cannot access private
socket file" and creates nothing. -/
theorem C6_bind_before_publish (env : FdkEnv) (runner : FdkRunner)
    (fs : FsState) (m0 : Nat) :
    ((FdkListener.new env runner fs m0).2.links = fs.links)
    ∧ (∀ e, (FdkListener.new env runner fs m0).1 = Except.error e →
        (FdkListener.new env runner fs m0).2 = fs)
    ∧ (∀ (l : FdkListener) (stderr : List String),
        FsState.fileMode fs l.private_socket_path = none →
          FdkListener.link_socket_file l fs stderr =
            (Except.error (RustFdkError.Fdk
              { message := "Cannot access private socket file", backtrace := [] }),
              fs, stderr)) := by
  refine ⟨?_, ?_, ?_⟩
  · unfold FdkListener.new
    split
    · rfl
    · split
      · rfl
      · split
        · rfl
        · split
          · rfl
          · next fs2 heq => exact bind_preserves_links fs m0 _ fs2 heq
  · intro e he
    rcases new_cases env runner fs m0 with h | ⟨l, hl⟩
    · exact h
    · rw [he] at hl
      simp at hl
  · intro l stderr hnone
    unfold FdkListener.link_socket_file
    rw [if_pos (by simp [hnone])]
    rfl

/-- Witness for C6: an injected bind failure (private path already occupied)
leaves the filesystem unchanged, and publishing with no bound private socket
file fails without creating a symlink. -/
theorem C6_bind_before_publish_witness :
    (FdkListener.new envTestListener (FdkRunner.new envTestListener) fsPre 420).2 = fsPre
    ∧ FdkListener.link_socket_file listenerW fsEmpty [] =
        (Except.error (RustFdkError.Fdk
          { message := "Cannot access private socket file", backtrace := [] }),
          fsEmpty, []) :=
  ⟨(C6_bind_before_publish envTestListener (FdkRunner.new envTestListener) fsPre 420).2.1
      (RustFdkError.Io IoErrorKind.addrInUse) (by decide),
   (C6_bind_before_publish envTestListener (FdkRunner.new envTestListener) fsEmpty 420).2.2
      listenerW [] rfl⟩

/-- Valid characters for `http::header::HeaderName::from_static` (the
`HeaderName` re-exported by actix-web and used in `src/main.rs`): the HTTP/2
lowercase token set, i.e. lowercase ASCII letters (97-122), ASCII digits
(48-57), and the token symbols with codepoints
33, 35, 36, 37, 38, 39, 42, 43, 45, 46, 94, 95, 96, 124, 126.
Uppercase letters are NOT in this set. -/
def hdrNameCharValid (c : Char) : Bool :=
  decide ((97 ≤ c.toNat ∧ c.toNat ≤ 122) ∨ (48 ≤ c.toNat ∧ c.toNat ≤ 57) ∨
    c.toNat ∈ [33, 35, 36, 37, 38, 39, 42, 43, 45, 46, 94, 95, 96, 124, 126])

/-- Modelled from the `http` crate (the dependency providing
`actix_web::http::HeaderName`): `HeaderName::from_static(s)` requires the
static string to contain only lowercase characters, numerals and symbols (the
HTTP/2 representation) and PANICS with "invalid header name" otherwise — in
particular on any uppercase letter.  The panic is modelled as `none`. -/
def headerNameFromStatic (s : String) : Option String :=
  if s.data ≠ [] ∧ s.data.all hdrNameCharValid then some s else none

/-- Valid characters for `http::header::HeaderValue::from_static`: horizontal
tab (9) or any codepoint from 32 up, excluding DEL (127). -/
def hdrValueCharValid (c : Char) : Bool :=
  decide (c.toNat = 9 ∨ (32 ≤ c.toNat ∧ c.toNat ≠ 127))

/-- Modelled from the `http` crate: `HeaderValue::from_static(s)` panics on
invalid value bytes; the panic is modelled as `none`.  (`"close"` is valid.) -/
def headerValueFromStatic (s : String) : Option String :=
  if s.data.all hdrValueCharValid then some s else none

/-- Embeds actix-web's `ServiceRequest` shallowly: the request data the
middleware could observe. -/
structure ServiceRequest where
  method : String
  uri : String
  headers : List (String × String)
  body : List Nat
deriving DecidableEq, Repr

/-- Embeds actix-web's `ServiceResponse` shallowly: status code, header map
(name-value pairs), body bytes. -/
structure ServiceResponse where
  status : Nat
  headers : List (String × String)
  body : List Nat
deriving DecidableEq, Repr

/-- Embeds `HeaderMap::insert`: replace every value previously associated
with the name by the single new value. -/
def headersInsert (headers : List (String × String)) (name value : String) :
    List (String × String) :=
  (name, value) :: headers.filter (fun e => ! (e.1 == name))

/-- Embeds `fdk_middleware_req`: the identity transform on the request. -/
def fdk_middleware_req (req : ServiceRequest) (_env : FdkEnv) : ServiceRequest :=
  req

/-- Embeds `fdk_middleware_res`: insert the `Connection: close` header built
with `HeaderName::from_static("Connection")` and
`HeaderValue::from_static("close")`.  A panic in either constructor is
modelled as `none` (no response leaves the middleware). -/
def fdk_middleware_res (res : ServiceResponse) : Option ServiceResponse :=
  match headerNameFromStatic "Connection", headerValueFromStatic "close" with
  | some n, some v => some { res with headers := headersInsert res.headers n v }
  | _, _ => none

/-- C1 (refuting evaluation): for EVERY response the post-response middleware
panics — `HeaderName::from_static("Connection")` rejects the uppercase `C` —
so no response carrying `Connection: close` ever leaves the pipeline. -/
theorem C1_middleware_res_panics_for_every_response :
    ∀ res : ServiceResponse, fdk_middleware_res res = none := by
  intro res
  have hn : headerNameFromStatic "Connection" = none := by decide
  simp only [fdk_middleware_res, hn]

/-- C10 (refuting evaluation): on a concrete handler response (status 200,
two headers, nonempty body) the post-response transform produces no output
response at all, so no post-transform response preserving status, body and
the other headers exists. -/
theorem C10_middleware_res_no_output_on_sample_response :
    fdk_middleware_res
      { status := 200
        headers := [("content-type", "text/plain"), ("Connection", "keep-alive")]
        body := [104, 105] } = none := by
  decide

/-- Embeds `actix_main` up to the moment the HTTP server engine starts
serving: build the runner, construct the listener (the `.unwrap()` panic on
construction failure is modelled as `none`), then hand the bound private
socket to `HttpServer::listen_uds` and run.  No other filesystem operation
happens in `actix_main`; in particular `link_socket_file` is never called.
Returns the filesystem state visible when serving starts, together with the
unix-socket path served. -/
def actix_main (env : FdkEnv) (fs : FsState) (m0 : Nat) :
    Option (FsState × String) :=
  let runner := FdkRunner.new env
  match FdkListener.new env runner fs m0 with
  | (Except.error _, _) => none
  | (Except.ok l, fs2) => some (fs2, l.private_socket_path)

/-- C2 (refuting evaluation): starting the bootstrap with
`FN_LISTENER=unix:/tmp/test.sock` on an empty filesystem reaches the serving
state with only the bound private socket file on disk — the public path
`tmp/test.sock` holds NO symlink, because `actix_main` never invokes the
publish step. -/
theorem C2_no_symlink_when_server_starts :
    actix_main envTestListener fsEmpty 420 =
      some ({ files := [("tmp/test.sock.private", 420)], links := [] },
        "tmp/test.sock.private")
    ∧ FsState.linkTarget
        { files := [("tmp/test.sock.private", 420)], links := [] }
        "tmp/test.sock" = none := by
  exact ⟨by decide, by decide⟩
